import Mathlib

/-!
Verification of the PyKMIP Pie/core managed-object converter
(`kmip/pie/factory.py`) and the Pie `Certificate` entity contract
(exercised by `kmip/tests/unit/pie/objects/test_certificate.py`).

Python dictionaries produced and consumed by the converter are embedded as
association lists of string keys, so that the presence, order and number of
keys in a mapping — and the distinction between an absent mapping, an empty
mapping and a populated mapping — remain observable.  Enum members, integers
and identifier attributes carried opaquely through the converter are embedded
as `Nat`; byte strings as `List Nat`; Python `None` as `Option.none`.

Classes of the repository that are not part of the two source files
(the `kmip.core` protocol objects and the `kmip.pie` simplified objects)
are modelled from the specification; each such definition carries a doc
comment starting with `Modelled from the spec:`.
-/

/-- The mapping returned by `ObjectFactory._build_cryptographic_parameters`:
thirteen fixed string keys, each holding a nullable opaque value. -/
abbrev CPDict := List (String × Option Nat)

/-- Values stored in a key-information mapping: the `unique_identifier`
entry or the nested `cryptographic_parameters` mapping. -/
inductive KIVal where
  | uid (v : Option Nat)
  | params (p : CPDict)
deriving DecidableEq

/-- The mapping built for `encryption_key_information` /
`mac_signature_key_information`: empty, or the two fixed keys. -/
abbrev KIDict := List (String × KIVal)

/-- Values stored in the key-wrapping-data mapping built by
`ObjectFactory._build_key_wrapping_data`. -/
inductive WDVal where
  | enum (v : Option Nat)
  | bytes (v : Option (List Nat))
  | info (d : KIDict)
deriving DecidableEq

/-- The key-wrapping-data mapping of the simplified (Pie) model. -/
abbrev WDDict := List (String × WDVal)

/-- Modelled from the spec: the core `CryptographicParameters` attribute
object (`kmip.core`, not under `src/`): thirteen optional fields carried
opaquely between representations without validation. -/
structure CryptographicParameters where
  block_cipher_mode : Option Nat
  padding_method : Option Nat
  hashing_algorithm : Option Nat
  key_role_type : Option Nat
  digital_signature_algorithm : Option Nat
  cryptographic_algorithm : Option Nat
  random_iv : Option Nat
  iv_length : Option Nat
  tag_length : Option Nat
  fixed_field_length : Option Nat
  invocation_field_length : Option Nat
  counter_length : Option Nat
  initial_counter_value : Option Nat
deriving DecidableEq

/-- Modelled from the spec: a core key-information block
(`EncryptionKeyInformation` / `MACSignatureKeyInformation` of `kmip.core`,
not under `src/`): a unique identifier plus cryptographic parameters. -/
structure EncryptionKeyInformation where
  unique_identifier : Option Nat
  cryptographic_parameters : CryptographicParameters
deriving DecidableEq

/-- Modelled from the spec: the core `KeyWrappingData` object (`kmip.core`,
not under `src/`).  Either key-information block may be absent; absence is
represented as `none` on the core side. -/
structure KeyWrappingData where
  wrapping_method : Option Nat
  encryption_key_information : Option EncryptionKeyInformation
  mac_signature_key_information : Option EncryptionKeyInformation
  mac_signature : Option (List Nat)
  iv_counter_nonce : Option (List Nat)
  encoding_option : Option Nat
deriving DecidableEq

/-- Look a key up in an association list (a Python dict access). -/
def dictFind {α : Type} (d : List (String × α)) (k : String) : Option α :=
  (d.find? (fun p => p.1 == k)).map Prod.snd

/-- Modelled from the spec: constructing a core `CryptographicParameters`
from a keyword-argument mapping; each of the thirteen fields is read from
its key, defaulting to null when absent. -/
def CryptographicParameters.ofDict (d : CPDict) : CryptographicParameters where
  block_cipher_mode := (dictFind d "block_cipher_mode").join
  padding_method := (dictFind d "padding_method").join
  hashing_algorithm := (dictFind d "hashing_algorithm").join
  key_role_type := (dictFind d "key_role_type").join
  digital_signature_algorithm := (dictFind d "digital_signature_algorithm").join
  cryptographic_algorithm := (dictFind d "cryptographic_algorithm").join
  random_iv := (dictFind d "random_iv").join
  iv_length := (dictFind d "iv_length").join
  tag_length := (dictFind d "tag_length").join
  fixed_field_length := (dictFind d "fixed_field_length").join
  invocation_field_length := (dictFind d "invocation_field_length").join
  counter_length := (dictFind d "counter_length").join
  initial_counter_value := (dictFind d "initial_counter_value").join

/-- Modelled from the spec: constructing a core key-information block from a
keyword-argument mapping: the unique identifier and the nested
cryptographic-parameters mapping (empty parameters when absent). -/
def EncryptionKeyInformation.ofDict (d : KIDict) : EncryptionKeyInformation where
  unique_identifier :=
    match dictFind d "unique_identifier" with
    | some (KIVal.uid v) => v
    | _ => none
  cryptographic_parameters :=
    match dictFind d "cryptographic_parameters" with
    | some (KIVal.params p) => CryptographicParameters.ofDict p
    | _ => CryptographicParameters.ofDict []

/-- Modelled from the spec: constructing a core `KeyWrappingData` from the
simplified model's keyword-argument mapping (`cobjects.KeyWrappingData(**d)`
in `ObjectFactory._build_core_key`).  An empty key-information sub-mapping
degrades to an absent core block. -/
def KeyWrappingData.ofDict (d : WDDict) : KeyWrappingData where
  wrapping_method :=
    match dictFind d "wrapping_method" with
    | some (WDVal.enum v) => v
    | _ => none
  encryption_key_information :=
    match dictFind d "encryption_key_information" with
    | some (WDVal.info ki) =>
        if ki.isEmpty then none else some (EncryptionKeyInformation.ofDict ki)
    | _ => none
  mac_signature_key_information :=
    match dictFind d "mac_signature_key_information" with
    | some (WDVal.info ki) =>
        if ki.isEmpty then none else some (EncryptionKeyInformation.ofDict ki)
    | _ => none
  mac_signature :=
    match dictFind d "mac_signature" with
    | some (WDVal.bytes v) => v
    | _ => none
  iv_counter_nonce :=
    match dictFind d "iv_counter_nonce" with
    | some (WDVal.bytes v) => v
    | _ => none
  encoding_option :=
    match dictFind d "encoding_option" with
    | some (WDVal.enum v) => v
    | _ => none

namespace ObjectFactory

/-- `ObjectFactory._build_cryptographic_parameters`: pure field-by-field copy
of the thirteen parameter fields of the source object into a mapping. -/
def build_cryptographic_parameters (value : CryptographicParameters) : CPDict :=
  [("block_cipher_mode", value.block_cipher_mode),
   ("padding_method", value.padding_method),
   ("hashing_algorithm", value.hashing_algorithm),
   ("key_role_type", value.key_role_type),
   ("digital_signature_algorithm", value.digital_signature_algorithm),
   ("cryptographic_algorithm", value.cryptographic_algorithm),
   ("random_iv", value.random_iv),
   ("iv_length", value.iv_length),
   ("tag_length", value.tag_length),
   ("fixed_field_length", value.fixed_field_length),
   ("invocation_field_length", value.invocation_field_length),
   ("counter_length", value.counter_length),
   ("initial_counter_value", value.initial_counter_value)]

/-- `ObjectFactory._build_key_wrapping_data`: absent source yields absent
result; a present source yields the six-key mapping, with each absent
key-information sub-block represented as an empty mapping. -/
def build_key_wrapping_data (value : Option KeyWrappingData) : Option WDDict :=
  match value with
  | none => none
  | some value =>
    let encryption_key_information : KIDict :=
      match value.encryption_key_information with
      | none => []
      | some info =>
          [("unique_identifier", KIVal.uid info.unique_identifier),
           ("cryptographic_parameters",
            KIVal.params (build_cryptographic_parameters info.cryptographic_parameters))]
    let mac_signature_key_information : KIDict :=
      match value.mac_signature_key_information with
      | none => []
      | some info =>
          [("unique_identifier", KIVal.uid info.unique_identifier),
           ("cryptographic_parameters",
            KIVal.params (build_cryptographic_parameters info.cryptographic_parameters))]
    some
      [("wrapping_method", WDVal.enum value.wrapping_method),
       ("encryption_key_information", WDVal.info encryption_key_information),
       ("mac_signature_key_information", WDVal.info mac_signature_key_information),
       ("mac_signature", WDVal.bytes value.mac_signature),
       ("iv_counter_nonce", WDVal.bytes value.iv_counter_nonce),
       ("encoding_option", WDVal.enum value.encoding_option)]

end ObjectFactory

/-- Modelled from the spec: `kmip.core.objects.KeyMaterial` — wraps a raw
byte string. -/
structure KeyMaterial where
  value : List Nat
deriving DecidableEq

/-- Modelled from the spec: `kmip.core.objects.KeyValue` — wraps key
material. -/
structure KeyValue where
  key_material : KeyMaterial
deriving DecidableEq

/-- Modelled from the spec: `kmip.core.objects.KeyBlock` — the protocol
key-block chain carrying format type, compression type, key value,
algorithm, length and optional wrapping data.  Wrapped attribute objects
(`misc.KeyFormatType`, `attributes.CryptographicAlgorithm`,
`attributes.CryptographicLength`) are embedded as the optional values they
wrap. -/
structure KeyBlock where
  key_format_type : Option Nat
  key_compression_type : Option Nat
  key_value : KeyValue
  cryptographic_algorithm : Option Nat
  cryptographic_length : Option Nat
  key_wrapping_data : Option KeyWrappingData
deriving DecidableEq

/-- Modelled from the spec: a protocol-universe key secret
(`kmip.core.secrets.SymmetricKey` / `PublicKey` / `PrivateKey`, not under
`src/`): each wraps a key block; which of the three classes it is is
recorded by the enclosing `MObj` constructor. -/
structure CoreKey where
  key_block : KeyBlock
deriving DecidableEq

/-- Modelled from the spec: a simplified-universe key
(`kmip.pie.objects.SymmetricKey` / `PublicKey` / `PrivateKey`, not under
`src/`): algorithm, length (bits), raw material, key format type and
optional key-wrapping-data mapping. -/
structure PieKey where
  cryptographic_algorithm : Nat
  cryptographic_length : Nat
  value : List Nat
  key_format_type : Nat
  key_wrapping_data : Option WDDict
deriving DecidableEq

/-- Modelled from the spec: the `kmip.pie.objects.SymmetricKey` constructor;
the simplified model derives the key format type from the key material and
algorithm (the derivation itself is not fixed by the spec, so it is passed
in as `derive`). -/
def PieSymmetricKey.make (derive : Nat → List Nat → Nat)
    (algorithm : Nat) (length : Nat) (value : List Nat)
    (key_wrapping_data : Option WDDict) : PieKey where
  cryptographic_algorithm := algorithm
  cryptographic_length := length
  value := value
  key_format_type := derive algorithm value
  key_wrapping_data := key_wrapping_data

/-- Modelled from the spec: the `kmip.pie.objects.PublicKey` /
`PrivateKey` constructors; the key format type is passed explicitly. -/
def PieAsymmetricKey.make (algorithm : Nat) (length : Nat) (value : List Nat)
    (format_type : Nat) (key_wrapping_data : Option WDDict) : PieKey where
  cryptographic_algorithm := algorithm
  cryptographic_length := length
  value := value
  key_format_type := format_type
  key_wrapping_data := key_wrapping_data

/-- KMIP certificate-type enumeration (only the members needed here). -/
inductive CertificateType where
  | X_509
  | PGP
deriving DecidableEq

/-- Modelled from the spec: a protocol-universe certificate
(`kmip.core.secrets.Certificate`, not under `src/`): a certificate type and
the DER-encoded certificate value (wrapped attribute objects embedded as
their values). -/
structure CoreCertificate where
  certificate_type : CertificateType
  certificate_value : List Nat
deriving DecidableEq

/-- Modelled from the spec: the simplified-universe X.509 certificate
(`kmip.pie.objects.X509Certificate`, not under `src/`), the concrete
certificate specialization built by the converter from the certificate
value alone. -/
structure X509Certificate where
  value : List Nat
deriving DecidableEq

/-- Modelled from the spec: the certificate type of an `X509Certificate` is
fixed to X.509 by its constructor. -/
def X509Certificate.certificate_type (_ : X509Certificate) : CertificateType :=
  CertificateType.X_509

/-- Modelled from the spec: a protocol-universe secret-data object
(`kmip.core.secrets.SecretData`, not under `src/`): a secret-data type and a
key block holding the material. -/
structure CoreSecretData where
  secret_data_type : Nat
  key_block : KeyBlock
deriving DecidableEq

/-- Modelled from the spec: the simplified-universe secret-data object
(`kmip.pie.objects.SecretData`, not under `src/`). -/
structure PieSecretData where
  value : List Nat
  data_type : Nat
deriving DecidableEq

/-- Modelled from the spec: a protocol-universe opaque-data object
(`kmip.core.secrets.OpaqueObject`, not under `src/`): a data type and a
data value, with no key-block wrapping. -/
structure CoreOpaqueObject where
  opaque_data_type : Nat
  opaque_data_value : List Nat
deriving DecidableEq

/-- Modelled from the spec: the simplified-universe opaque-data object
(`kmip.pie.objects.OpaqueObject`, not under `src/`). -/
structure PieOpaqueObject where
  value : List Nat
  opaque_type : Nat
deriving DecidableEq

/-- Modelled from the spec: a protocol-universe split key
(`kmip.core.secrets.SplitKey`, not under `src/`): a key block plus the four
sharing parameters and the optional prime field size. -/
structure CoreSplitKey where
  split_key_parts : Nat
  key_part_identifier : Nat
  split_key_threshold : Nat
  split_key_method : Nat
  prime_field_size : Option Nat
  key_block : KeyBlock
deriving DecidableEq

/-- Modelled from the spec: the simplified-universe split key
(`kmip.pie.objects.SplitKey`, not under `src/`): the key fields plus the
sharing parameters, all stored as given. -/
structure PieSplitKey where
  cryptographic_algorithm : Nat
  cryptographic_length : Nat
  value : List Nat
  key_format_type : Nat
  key_wrapping_data : Option WDDict
  split_key_parts : Nat
  key_part_identifier : Nat
  split_key_threshold : Nat
  split_key_method : Nat
  prime_field_size : Option Nat
deriving DecidableEq

/-- The KMIP `KeyFormatType.OPAQUE` enumeration value
(`enums.KeyFormatType.OPAQUE`, 0x02). -/
def KeyFormatTypeOPAQUE : Nat := 2

/-- The kinds of `TypeError` raised by `ObjectFactory`: unsupported input
variant, unsupported core certificate type, symmetric-key format-type
mismatch (carrying the expected and observed values), and an attribute
access on an absent (`None`) key-block field. -/
inductive ConvError where
  | unsupportedVariant
  | unsupportedCertificateType
  | formatMismatch (expected observed : Nat)
  | attributeError
deriving DecidableEq

/-- Which of the three key classes `_build_pie_key` is building
(the `cls` argument of the Python method). -/
inductive KeyCls where
  | symmetric
  | publicKey
  | privateKey
deriving DecidableEq

/-- A converter input or output: the seven managed-object variants in each
of the two universes, plus an object of a foreign, unrecognized type. -/
inductive MObj where
  | pieSymmetricKey (k : PieKey)
  | coreSymmetricKey (k : CoreKey)
  | piePublicKey (k : PieKey)
  | corePublicKey (k : CoreKey)
  | piePrivateKey (k : PieKey)
  | corePrivateKey (k : CoreKey)
  | pieCertificate (c : X509Certificate)
  | coreCertificate (c : CoreCertificate)
  | pieSecretData (s : PieSecretData)
  | coreSecretData (s : CoreSecretData)
  | pieOpaqueObject (o : PieOpaqueObject)
  | coreOpaqueObject (o : CoreOpaqueObject)
  | pieSplitKey (s : PieSplitKey)
  | coreSplitKey (s : CoreSplitKey)
  | foreign (tag : Nat)
deriving DecidableEq

namespace ObjectFactory

/-- `ObjectFactory._build_pie_certificate`: a core certificate converts to a
Pie `X509Certificate` when its type is X.509 and is rejected otherwise. -/
def build_pie_certificate (cert : CoreCertificate) :
    Except ConvError X509Certificate :=
  if cert.certificate_type = CertificateType.X_509 then
    Except.ok ⟨cert.certificate_value⟩
  else
    Except.error ConvError.unsupportedCertificateType

/-- `ObjectFactory._build_pie_key`: reads algorithm, length, material,
format type and wrapping data from the key block (raising on an absent
attribute); for `SymmetricKey` it rebuilds the Pie key and rejects it when
the derived format type differs from the declared one; for `PublicKey` /
`PrivateKey` the declared format type is passed through unchecked. -/
def build_pie_key (derive : Nat → List Nat → Nat) (cls : KeyCls)
    (key : CoreKey) : Except ConvError PieKey :=
  match key.key_block.cryptographic_algorithm,
        key.key_block.cryptographic_length,
        key.key_block.key_format_type with
  | some algorithm, some length, some format_type =>
    let value := key.key_block.key_value.key_material.value
    let key_wrapping_data := key.key_block.key_wrapping_data
    match cls with
    | KeyCls.symmetric =>
      let k := PieSymmetricKey.make derive algorithm length value
        (build_key_wrapping_data key_wrapping_data)
      if k.key_format_type ≠ format_type then
        Except.error (ConvError.formatMismatch k.key_format_type format_type)
      else
        Except.ok k
    | _ =>
      Except.ok (PieAsymmetricKey.make algorithm length value format_type
        (build_key_wrapping_data key_wrapping_data))
  | _, _, _ => Except.error ConvError.attributeError

/-- `ObjectFactory._build_pie_secret_data`: reads the secret-data type and
the key material out of the key block. -/
def build_pie_secret_data (secret : CoreSecretData) : PieSecretData where
  value := secret.key_block.key_value.key_material.value
  data_type := secret.secret_data_type

/-- `ObjectFactory._build_pie_opaque_object`: direct field copy. -/
def build_pie_opaque_object (obj : CoreOpaqueObject) : PieOpaqueObject where
  value := obj.opaque_data_value
  opaque_type := obj.opaque_data_type

/-- `ObjectFactory._build_pie_split_key`: reads the key fields out of the
key block (raising on an absent attribute) and carries the five sharing
parameters through unchanged; no format-type check is performed. -/
def build_pie_split_key (secret : CoreSplitKey) :
    Except ConvError PieSplitKey :=
  match secret.key_block.cryptographic_algorithm,
        secret.key_block.cryptographic_length,
        secret.key_block.key_format_type with
  | some algorithm, some length, some format_type =>
    Except.ok
      { cryptographic_algorithm := algorithm
        cryptographic_length := length
        value := secret.key_block.key_value.key_material.value
        key_format_type := format_type
        key_wrapping_data :=
          build_key_wrapping_data secret.key_block.key_wrapping_data
        split_key_parts := secret.split_key_parts
        key_part_identifier := secret.key_part_identifier
        split_key_threshold := secret.split_key_threshold
        split_key_method := secret.split_key_method
        prime_field_size := secret.prime_field_size }
  | _, _, _ => Except.error ConvError.attributeError

/-- `ObjectFactory._build_core_key`: wraps the raw material in the
key-material → key-value → key-block chain; the wrapping-data mapping is
tested by truthiness (`if key.key_wrapping_data:`), so an absent or empty
mapping yields an absent core wrapping-data field. -/
def build_core_key (key : PieKey) : KeyBlock :=
  let key_material : KeyMaterial := ⟨key.value⟩
  let key_value : KeyValue := ⟨key_material⟩
  let key_wrapping_data : Option KeyWrappingData :=
    match key.key_wrapping_data with
    | some d => if d.isEmpty then none else some (KeyWrappingData.ofDict d)
    | none => none
  { key_format_type := some key.key_format_type
    key_compression_type := none
    key_value := key_value
    cryptographic_algorithm := some key.cryptographic_algorithm
    cryptographic_length := some key.cryptographic_length
    key_wrapping_data := key_wrapping_data }

/-- `ObjectFactory._build_core_certificate`: direct field copy of the
certificate type and value. -/
def build_core_certificate (cert : X509Certificate) : CoreCertificate where
  certificate_type := cert.certificate_type
  certificate_value := cert.value

/-- `ObjectFactory._build_core_secret_data`: wraps the material in a key
block whose format type is fixed to OPAQUE and whose algorithm, length and
wrapping-data fields are omitted. -/
def build_core_secret_data (secret : PieSecretData) : CoreSecretData where
  secret_data_type := secret.data_type
  key_block :=
    { key_format_type := some KeyFormatTypeOPAQUE
      key_compression_type := none
      key_value := ⟨⟨secret.value⟩⟩
      cryptographic_algorithm := none
      cryptographic_length := none
      key_wrapping_data := none }

/-- `ObjectFactory._build_core_split_key`: wraps the key fields in a key
block (wrapping data again tested by truthiness) and carries the five
sharing parameters through unchanged. -/
def build_core_split_key (secret : PieSplitKey) : CoreSplitKey where
  split_key_parts := secret.split_key_parts
  key_part_identifier := secret.key_part_identifier
  split_key_threshold := secret.split_key_threshold
  split_key_method := secret.split_key_method
  prime_field_size := secret.prime_field_size
  key_block :=
    { key_format_type := some secret.key_format_type
      key_compression_type := none
      key_value := ⟨⟨secret.value⟩⟩
      cryptographic_algorithm := some secret.cryptographic_algorithm
      cryptographic_length := some secret.cryptographic_length
      key_wrapping_data :=
        match secret.key_wrapping_data with
        | some d => if d.isEmpty then none else some (KeyWrappingData.ofDict d)
        | none => none }

/-- `ObjectFactory._build_core_opaque_object`: direct field copy. -/
def build_core_opaque_object (obj : PieOpaqueObject) : CoreOpaqueObject where
  opaque_data_type := obj.opaque_type
  opaque_data_value := obj.value

/-- `ObjectFactory.convert`: variant-exhaustive dispatch over the seven
managed-object variants in both universes; any other input raises the
unsupported-type `TypeError`. -/
def convert (derive : Nat → List Nat → Nat) (obj : MObj) :
    Except ConvError MObj :=
  match obj with
  | MObj.pieSymmetricKey k => Except.ok (MObj.coreSymmetricKey ⟨build_core_key k⟩)
  | MObj.coreSymmetricKey k =>
      (build_pie_key derive KeyCls.symmetric k).map MObj.pieSymmetricKey
  | MObj.piePublicKey k => Except.ok (MObj.corePublicKey ⟨build_core_key k⟩)
  | MObj.corePublicKey k =>
      (build_pie_key derive KeyCls.publicKey k).map MObj.piePublicKey
  | MObj.piePrivateKey k => Except.ok (MObj.corePrivateKey ⟨build_core_key k⟩)
  | MObj.corePrivateKey k =>
      (build_pie_key derive KeyCls.privateKey k).map MObj.piePrivateKey
  | MObj.pieCertificate c => Except.ok (MObj.coreCertificate (build_core_certificate c))
  | MObj.coreCertificate c => (build_pie_certificate c).map MObj.pieCertificate
  | MObj.pieSecretData s => Except.ok (MObj.coreSecretData (build_core_secret_data s))
  | MObj.coreSecretData s => Except.ok (MObj.pieSecretData (build_pie_secret_data s))
  | MObj.pieOpaqueObject o => Except.ok (MObj.coreOpaqueObject (build_core_opaque_object o))
  | MObj.coreOpaqueObject o => Except.ok (MObj.pieOpaqueObject (build_pie_opaque_object o))
  | MObj.pieSplitKey s => Except.ok (MObj.coreSplitKey (build_core_split_key s))
  | MObj.coreSplitKey s => (build_pie_split_key s).map MObj.pieSplitKey
  | MObj.foreign _ => Except.error ConvError.unsupportedVariant

end ObjectFactory

/-- The key-information mapping the converter produces for a given optional
core key-information block: empty when the block is absent. -/
def KIDictOf (info : Option EncryptionKeyInformation) : KIDict :=
  match info with
  | none => []
  | some info =>
      [("unique_identifier", KIVal.uid info.unique_identifier),
       ("cryptographic_parameters",
        KIVal.params (ObjectFactory.build_cryptographic_parameters
          info.cryptographic_parameters))]

/-- The six-key wrapping-data mapping the converter produces for a given
core `KeyWrappingData`. -/
def WDDictOf (k : KeyWrappingData) : WDDict :=
  [("wrapping_method", WDVal.enum k.wrapping_method),
   ("encryption_key_information", WDVal.info (KIDictOf k.encryption_key_information)),
   ("mac_signature_key_information", WDVal.info (KIDictOf k.mac_signature_key_information)),
   ("mac_signature", WDVal.bytes k.mac_signature),
   ("iv_counter_nonce", WDVal.bytes k.iv_counter_nonce),
   ("encoding_option", WDVal.enum k.encoding_option)]

/-- A well-formed simplified-model wrapping-data field: absent, or a
mapping of the canonical six-key shape (the shape the Pie object
documentation prescribes and the converter itself produces). -/
def WFkwd (o : Option WDDict) : Prop :=
  o = none ∨ ∃ k, o = some (WDDictOf k)

/-- A well-formed protocol-model key block for a key secret: algorithm,
length and format type present, no compression type. -/
def WFCoreKB (kb : KeyBlock) : Prop :=
  (∃ a, kb.cryptographic_algorithm = some a) ∧
  (∃ l, kb.cryptographic_length = some l) ∧
  (∃ f, kb.key_format_type = some f) ∧
  kb.key_compression_type = none

/-- Well-formedness of a converter input, one case per variant: Pie keys
carry the format type their constructor derives and a canonical wrapping
mapping; core key blocks have their required attributes present (for a
symmetric key, a format type matching the derived one); a core certificate
is X.509; a core secret-data key block has the canonical opaque shape. -/
def WellFormed (derive : Nat → List Nat → Nat) : MObj → Prop
  | MObj.pieSymmetricKey k =>
      k.key_format_type = derive k.cryptographic_algorithm k.value ∧
      WFkwd k.key_wrapping_data
  | MObj.coreSymmetricKey k =>
      ∃ a l, k.key_block.cryptographic_algorithm = some a ∧
        k.key_block.cryptographic_length = some l ∧
        k.key_block.key_format_type =
          some (derive a k.key_block.key_value.key_material.value) ∧
        k.key_block.key_compression_type = none
  | MObj.piePublicKey k => WFkwd k.key_wrapping_data
  | MObj.corePublicKey k => WFCoreKB k.key_block
  | MObj.piePrivateKey k => WFkwd k.key_wrapping_data
  | MObj.corePrivateKey k => WFCoreKB k.key_block
  | MObj.pieCertificate _ => True
  | MObj.coreCertificate c => c.certificate_type = CertificateType.X_509
  | MObj.pieSecretData _ => True
  | MObj.coreSecretData s =>
      s.key_block.key_format_type = some KeyFormatTypeOPAQUE ∧
      s.key_block.key_compression_type = none ∧
      s.key_block.cryptographic_algorithm = none ∧
      s.key_block.cryptographic_length = none ∧
      s.key_block.key_wrapping_data = none
  | MObj.pieOpaqueObject _ => True
  | MObj.coreOpaqueObject _ => True
  | MObj.pieSplitKey s => WFkwd s.key_wrapping_data
  | MObj.coreSplitKey s => WFCoreKB s.key_block
  | MObj.foreign _ => False

/-- KMIP cryptographic-usage-mask enumeration (only the members needed by
the certificate tests). -/
inductive CryptographicUsageMask where
  | ENCRYPT
  | VERIFY
deriving DecidableEq

/-- KMIP object-type enumeration (only the members needed here). -/
inductive ObjectType where
  | CERTIFICATE
  | SYMMETRIC_KEY
deriving DecidableEq

/-- A dynamically typed Python value passed to the `Certificate`
constructor. -/
inductive PyVal where
  | certType (t : CertificateType)
  | bytes (b : List Nat)
  | int (n : Int)
  | str (s : String)
  | mask (m : CryptographicUsageMask)
  | list (l : List PyVal)

/-- Modelled from the spec: the simplified-model `Certificate` entity
(`kmip.pie.objects.Certificate`, not under `src/`): certificate type,
DER value, usage masks (default empty) and names (default a single
placeholder entry, never empty). -/
structure PieCertificateEntity where
  certificate_type : CertificateType
  value : List Nat
  cryptographic_usage_masks : List CryptographicUsageMask
  names : List String

/-- The construction-validation failure of the `Certificate` entity
contract (`TypeError` in the source tests). -/
inductive CertError where
  | constructionValidation
deriving DecidableEq

/-- The elements of a masks list accepted by certificate validation: every
element must be a recognized cryptographic-usage-mask enum value. -/
def extractMaskList : List PyVal → Option (List CryptographicUsageMask)
  | [] => some []
  | x :: rest =>
      match x with
      | PyVal.mask m => (extractMaskList rest).map (fun ms => m :: ms)
      | _ => none

/-- The masks argument accepted by certificate validation: absent defaults
to the empty list; a non-list, or a list with an unrecognized element, is
rejected. -/
def extractMasks (masks : Option PyVal) : Option (List CryptographicUsageMask) :=
  match masks with
  | none => some []
  | some (PyVal.list l) => extractMaskList l
  | some _ => none

/-- The name argument accepted by certificate validation: absent defaults
to the placeholder name; otherwise it must be a string. -/
def extractName (name : Option PyVal) : Option String :=
  match name with
  | none => some "Certificate"
  | some (PyVal.str s) => some s
  | some _ => none

namespace Certificate

/-- Modelled from the spec: construction of a concrete `Certificate`
specialization (`DummyCertificate` in the tests): validation fails with a
construction error unless the certificate type is a recognized
certificate-type enum value, the value is a byte sequence, the masks (when
given) are a list of recognized usage-mask enum values and the name (when
given) is a string; on success the fields are stored, masks defaulting to
the empty list and names to the one-element placeholder list. -/
def construct (certificate_type value : PyVal)
    (masks : Option PyVal) (name : Option PyVal) :
    Except CertError PieCertificateEntity :=
  match certificate_type with
  | PyVal.certType t =>
      (match value with
       | PyVal.bytes b =>
           (match extractMasks masks with
            | some ms =>
                (match extractName name with
                 | some nm =>
                     Except.ok
                       { certificate_type := t
                         value := b
                         cryptographic_usage_masks := ms
                         names := [nm] }
                 | none => Except.error CertError.constructionValidation)
            | none => Except.error CertError.constructionValidation)
       | _ => Except.error CertError.constructionValidation)
  | _ => Except.error CertError.constructionValidation

/-- Modelled from the spec: the abstract `Certificate` entity must never be
instantiated directly; any direct instantiation attempt fails with a
construction error regardless of the arguments, before validation runs. -/
def constructAbstract (certificate_type value : PyVal)
    (masks : Option PyVal) (name : Option PyVal) :
    Except CertError PieCertificateEntity :=
  Except.error CertError.constructionValidation

end Certificate

/-- Modelled from the spec: every concrete `Certificate` specialization
reports the certificate object-type tag as its `object_type`. -/
def PieCertificateEntity.object_type (_ : PieCertificateEntity) : ObjectType :=
  ObjectType.CERTIFICATE

theorem cp_dict_roundtrip (p : CryptographicParameters) :
    CryptographicParameters.ofDict (ObjectFactory.build_cryptographic_parameters p) = p :=
  rfl

theorem build_kwd_some (k : KeyWrappingData) :
    ObjectFactory.build_key_wrapping_data (some k) = some (WDDictOf k) := by
  obtain ⟨wm, eki, mski, ms, ivn, eo⟩ := k
  cases eki <;> cases mski <;> rfl

theorem kwd_ofDict_WDDictOf (k : KeyWrappingData) :
    KeyWrappingData.ofDict (WDDictOf k) = k := by
  obtain ⟨wm, eki, mski, ms, ivn, eo⟩ := k
  cases eki <;> cases mski <;> rfl

theorem build_kwd_none :
    ObjectFactory.build_key_wrapping_data none = none :=
  rfl

theorem WDDictOf_isEmpty (k : KeyWrappingData) :
    (WDDictOf k).isEmpty = false :=
  rfl

theorem pie_key_core_roundtrip_sym (derive : Nat → List Nat → Nat) (k : PieKey)
    (hf : k.key_format_type = derive k.cryptographic_algorithm k.value)
    (hw : WFkwd k.key_wrapping_data) :
    ObjectFactory.build_pie_key derive KeyCls.symmetric
      ⟨ObjectFactory.build_core_key k⟩ = Except.ok k := by
  obtain ⟨a, l, v, f, w⟩ := k
  simp only at hf hw
  subst hf
  rcases hw with hw | ⟨kk, hw⟩ <;> subst hw <;>
    simp [ObjectFactory.build_pie_key, ObjectFactory.build_core_key,
      PieSymmetricKey.make, build_kwd_none, build_kwd_some,
      kwd_ofDict_WDDictOf, WDDictOf_isEmpty]

theorem pie_key_core_roundtrip_asym (derive : Nat → List Nat → Nat)
    (cls : KeyCls) (hcls : cls ≠ KeyCls.symmetric) (k : PieKey)
    (hw : WFkwd k.key_wrapping_data) :
    ObjectFactory.build_pie_key derive cls
      ⟨ObjectFactory.build_core_key k⟩ = Except.ok k := by
  obtain ⟨a, l, v, f, w⟩ := k
  simp only at hw
  cases cls with
  | symmetric => exact absurd rfl hcls
  | publicKey =>
    rcases hw with hw | ⟨kk, hw⟩ <;> subst hw <;>
      simp [ObjectFactory.build_pie_key, ObjectFactory.build_core_key,
        PieAsymmetricKey.make, build_kwd_none, build_kwd_some,
        kwd_ofDict_WDDictOf, WDDictOf_isEmpty]
  | privateKey =>
    rcases hw with hw | ⟨kk, hw⟩ <;> subst hw <;>
      simp [ObjectFactory.build_pie_key, ObjectFactory.build_core_key,
        PieAsymmetricKey.make, build_kwd_none, build_kwd_some,
        kwd_ofDict_WDDictOf, WDDictOf_isEmpty]

theorem core_key_pie_roundtrip_sym (derive : Nat → List Nat → Nat)
    (kb : KeyBlock) (a l : Nat)
    (ha : kb.cryptographic_algorithm = some a)
    (hl : kb.cryptographic_length = some l)
    (hf : kb.key_format_type = some (derive a kb.key_value.key_material.value))
    (hc : kb.key_compression_type = none) :
    ∃ p, ObjectFactory.build_pie_key derive KeyCls.symmetric ⟨kb⟩ = Except.ok p ∧
      ObjectFactory.build_core_key p = kb := by
  obtain ⟨fmt, comp, kv, alg, len, kwd⟩ := kb
  simp only at ha hl hf hc
  subst ha hl hf hc
  refine ⟨PieSymmetricKey.make derive a l kv.key_material.value
    (ObjectFactory.build_key_wrapping_data kwd), ?_, ?_⟩
  · simp [ObjectFactory.build_pie_key, PieSymmetricKey.make]
  · cases kwd with
    | none =>
      simp [ObjectFactory.build_core_key, PieSymmetricKey.make, build_kwd_none]
    | some k0 =>
      simp [ObjectFactory.build_core_key, PieSymmetricKey.make, build_kwd_some,
        kwd_ofDict_WDDictOf, WDDictOf_isEmpty]

theorem core_key_pie_roundtrip_asym (derive : Nat → List Nat → Nat)
    (cls : KeyCls) (hcls : cls ≠ KeyCls.symmetric)
    (kb : KeyBlock) (h : WFCoreKB kb) :
    ∃ p, ObjectFactory.build_pie_key derive cls ⟨kb⟩ = Except.ok p ∧
      ObjectFactory.build_core_key p = kb := by
  obtain ⟨⟨a, ha⟩, ⟨l, hl⟩, ⟨f, hf⟩, hc⟩ := h
  obtain ⟨fmt, comp, kv, alg, len, kwd⟩ := kb
  simp only at ha hl hf hc
  subst ha hl hf hc
  cases cls with
  | symmetric => exact absurd rfl hcls
  | publicKey =>
    refine ⟨_, rfl, ?_⟩
    cases kwd with
    | none =>
      simp [ObjectFactory.build_pie_key, ObjectFactory.build_core_key,
        PieAsymmetricKey.make, build_kwd_none]
    | some k0 =>
      simp [ObjectFactory.build_pie_key, ObjectFactory.build_core_key,
        PieAsymmetricKey.make, build_kwd_some, kwd_ofDict_WDDictOf,
        WDDictOf_isEmpty]
  | privateKey =>
    refine ⟨_, rfl, ?_⟩
    cases kwd with
    | none =>
      simp [ObjectFactory.build_pie_key, ObjectFactory.build_core_key,
        PieAsymmetricKey.make, build_kwd_none]
    | some k0 =>
      simp [ObjectFactory.build_pie_key, ObjectFactory.build_core_key,
        PieAsymmetricKey.make, build_kwd_some, kwd_ofDict_WDDictOf,
        WDDictOf_isEmpty]

theorem pie_split_key_roundtrip (s : PieSplitKey)
    (hw : WFkwd s.key_wrapping_data) :
    ObjectFactory.build_pie_split_key (ObjectFactory.build_core_split_key s) =
      Except.ok s := by
  obtain ⟨a, l, v, f, w, p1, p2, p3, p4, p5⟩ := s
  simp only at hw
  rcases hw with hw | ⟨kk, hw⟩ <;> subst hw <;>
    simp [ObjectFactory.build_pie_split_key, ObjectFactory.build_core_split_key,
      build_kwd_none, build_kwd_some, kwd_ofDict_WDDictOf, WDDictOf_isEmpty]

theorem core_split_key_roundtrip (s : CoreSplitKey) (h : WFCoreKB s.key_block) :
    ∃ p, ObjectFactory.build_pie_split_key s = Except.ok p ∧
      ObjectFactory.build_core_split_key p = s := by
  obtain ⟨⟨a, ha⟩, ⟨l, hl⟩, ⟨f, hf⟩, hc⟩ := h
  obtain ⟨p1, p2, p3, p4, p5, fmt, comp, kv, alg, len, kwd⟩ := s
  simp only at ha hl hf hc
  subst ha hl hf hc
  refine ⟨_, rfl, ?_⟩
  cases kwd with
  | none =>
    simp [ObjectFactory.build_pie_split_key, ObjectFactory.build_core_split_key,
      build_kwd_none]
  | some k0 =>
    simp [ObjectFactory.build_pie_split_key, ObjectFactory.build_core_split_key,
      build_kwd_some, kwd_ofDict_WDDictOf, WDDictOf_isEmpty]

/-- C1: for every well-formed object of a supported variant in either
universe (simplified or protocol symmetric key, public key, private key,
secret data, opaque object, split key, and X.509 certificate),
`convert (convert x)` yields an object equal to `x` in all semantic
fields. -/
theorem C1_round_trip_identity (derive : Nat → List Nat → Nat) (x : MObj)
    (h : WellFormed derive x) :
    ∃ y, ObjectFactory.convert derive x = Except.ok y ∧
      ObjectFactory.convert derive y = Except.ok x := by
  cases x with
  | pieSymmetricKey k =>
    simp only [WellFormed] at h
    obtain ⟨hf, hw⟩ := h
    refine ⟨MObj.coreSymmetricKey ⟨ObjectFactory.build_core_key k⟩, rfl, ?_⟩
    show (ObjectFactory.build_pie_key derive KeyCls.symmetric
      ⟨ObjectFactory.build_core_key k⟩).map MObj.pieSymmetricKey = _
    rw [pie_key_core_roundtrip_sym derive k hf hw]
    rfl
  | coreSymmetricKey k =>
    obtain ⟨kb⟩ := k
    simp only [WellFormed] at h
    obtain ⟨a, l, ha, hl, hff, hc⟩ := h
    obtain ⟨p, hp1, hp2⟩ := core_key_pie_roundtrip_sym derive kb a l ha hl hff hc
    refine ⟨MObj.pieSymmetricKey p, ?_, ?_⟩
    · show (ObjectFactory.build_pie_key derive KeyCls.symmetric
        ⟨kb⟩).map MObj.pieSymmetricKey = _
      rw [hp1]
      rfl
    · show Except.ok (MObj.coreSymmetricKey ⟨ObjectFactory.build_core_key p⟩) = _
      rw [hp2]
  | piePublicKey k =>
    simp only [WellFormed] at h
    refine ⟨MObj.corePublicKey ⟨ObjectFactory.build_core_key k⟩, rfl, ?_⟩
    show (ObjectFactory.build_pie_key derive KeyCls.publicKey
      ⟨ObjectFactory.build_core_key k⟩).map MObj.piePublicKey = _
    rw [pie_key_core_roundtrip_asym derive KeyCls.publicKey (by decide) k h]
    rfl
  | corePublicKey k =>
    obtain ⟨kb⟩ := k
    simp only [WellFormed] at h
    obtain ⟨p, hp1, hp2⟩ :=
      core_key_pie_roundtrip_asym derive KeyCls.publicKey (by decide) kb h
    refine ⟨MObj.piePublicKey p, ?_, ?_⟩
    · show (ObjectFactory.build_pie_key derive KeyCls.publicKey
        ⟨kb⟩).map MObj.piePublicKey = _
      rw [hp1]
      rfl
    · show Except.ok (MObj.corePublicKey ⟨ObjectFactory.build_core_key p⟩) = _
      rw [hp2]
  | piePrivateKey k =>
    simp only [WellFormed] at h
    refine ⟨MObj.corePrivateKey ⟨ObjectFactory.build_core_key k⟩, rfl, ?_⟩
    show (ObjectFactory.build_pie_key derive KeyCls.privateKey
      ⟨ObjectFactory.build_core_key k⟩).map MObj.piePrivateKey = _
    rw [pie_key_core_roundtrip_asym derive KeyCls.privateKey (by decide) k h]
    rfl
  | corePrivateKey k =>
    obtain ⟨kb⟩ := k
    simp only [WellFormed] at h
    obtain ⟨p, hp1, hp2⟩ :=
      core_key_pie_roundtrip_asym derive KeyCls.privateKey (by decide) kb h
    refine ⟨MObj.piePrivateKey p, ?_, ?_⟩
    · show (ObjectFactory.build_pie_key derive KeyCls.privateKey
        ⟨kb⟩).map MObj.piePrivateKey = _
      rw [hp1]
      rfl
    · show Except.ok (MObj.corePrivateKey ⟨ObjectFactory.build_core_key p⟩) = _
      rw [hp2]
  | pieCertificate c =>
    exact ⟨MObj.coreCertificate (ObjectFactory.build_core_certificate c), rfl, rfl⟩
  | coreCertificate c =>
    obtain ⟨t, v⟩ := c
    simp only [WellFormed] at h
    subst h
    exact ⟨MObj.pieCertificate ⟨v⟩, rfl, rfl⟩
  | pieSecretData s =>
    exact ⟨MObj.coreSecretData (ObjectFactory.build_core_secret_data s), rfl, rfl⟩
  | coreSecretData s =>
    obtain ⟨t, fmt, comp, kv, alg, len, kwd⟩ := s
    simp only [WellFormed] at h
    obtain ⟨h1, h2, h3, h4, h5⟩ := h
    subst h1 h2 h3 h4 h5
    exact ⟨MObj.pieSecretData ⟨kv.key_material.value, t⟩, rfl, rfl⟩
  | pieOpaqueObject o =>
    exact ⟨MObj.coreOpaqueObject (ObjectFactory.build_core_opaque_object o), rfl, rfl⟩
  | coreOpaqueObject o =>
    exact ⟨MObj.pieOpaqueObject (ObjectFactory.build_pie_opaque_object o), rfl, rfl⟩
  | pieSplitKey s =>
    simp only [WellFormed] at h
    refine ⟨MObj.coreSplitKey (ObjectFactory.build_core_split_key s), rfl, ?_⟩
    show (ObjectFactory.build_pie_split_key
      (ObjectFactory.build_core_split_key s)).map MObj.pieSplitKey = _
    rw [pie_split_key_roundtrip s h]
    rfl
  | coreSplitKey s =>
    simp only [WellFormed] at h
    obtain ⟨p, hp1, hp2⟩ := core_split_key_roundtrip s h
    refine ⟨MObj.pieSplitKey p, ?_, ?_⟩
    · show (ObjectFactory.build_pie_split_key s).map MObj.pieSplitKey = _
      rw [hp1]
      rfl
    · show Except.ok (MObj.coreSplitKey (ObjectFactory.build_core_split_key p)) = _
      rw [hp2]
  | foreign t =>
    simp only [WellFormed] at h

/-- Witness for C1: a concrete well-formed simplified symmetric key (with
wrapped key material) round-trips through the converter. -/
theorem C1_round_trip_identity_witness :
    ∃ y, ObjectFactory.convert (fun _ _ => 1)
        (MObj.pieSymmetricKey
          { cryptographic_algorithm := 3
            cryptographic_length := 128
            value := [0, 1, 2]
            key_format_type := 1
            key_wrapping_data :=
              some (WDDictOf
                { wrapping_method := some 1
                  encryption_key_information :=
                    some { unique_identifier := some 7
                           cryptographic_parameters :=
                             { block_cipher_mode := some 4
                               padding_method := none
                               hashing_algorithm := none
                               key_role_type := none
                               digital_signature_algorithm := none
                               cryptographic_algorithm := none
                               random_iv := none
                               iv_length := none
                               tag_length := none
                               fixed_field_length := none
                               invocation_field_length := none
                               counter_length := none
                               initial_counter_value := none } }
                  mac_signature_key_information := none
                  mac_signature := none
                  iv_counter_nonce := none
                  encoding_option := some 2 }) }) = Except.ok y ∧
      ObjectFactory.convert (fun _ _ => 1) y =
        Except.ok (MObj.pieSymmetricKey
          { cryptographic_algorithm := 3
            cryptographic_length := 128
            value := [0, 1, 2]
            key_format_type := 1
            key_wrapping_data :=
              some (WDDictOf
                { wrapping_method := some 1
                  encryption_key_information :=
                    some { unique_identifier := some 7
                           cryptographic_parameters :=
                             { block_cipher_mode := some 4
                               padding_method := none
                               hashing_algorithm := none
                               key_role_type := none
                               digital_signature_algorithm := none
                               cryptographic_algorithm := none
                               random_iv := none
                               iv_length := none
                               tag_length := none
                               fixed_field_length := none
                               invocation_field_length := none
                               counter_length := none
                               initial_counter_value := none } }
                  mac_signature_key_information := none
                  mac_signature := none
                  iv_counter_nonce := none
                  encoding_option := some 2 }) }) :=
  C1_round_trip_identity (fun _ _ => 1) _ ⟨rfl, Or.inr ⟨_, rfl⟩⟩

/-- C2: every one of the seven managed-object variants, in both universes,
is routed by `convert` to the builder for that variant and direction, and
any input of an unrecognized type yields the unsupported-variant error and
no object. -/
theorem C2_exhaustive_dispatch (derive : Nat → List Nat → Nat) :
    (∀ k, ObjectFactory.convert derive (MObj.pieSymmetricKey k) =
      Except.ok (MObj.coreSymmetricKey ⟨ObjectFactory.build_core_key k⟩)) ∧
    (∀ k, ObjectFactory.convert derive (MObj.coreSymmetricKey k) =
      (ObjectFactory.build_pie_key derive KeyCls.symmetric k).map
        MObj.pieSymmetricKey) ∧
    (∀ k, ObjectFactory.convert derive (MObj.piePublicKey k) =
      Except.ok (MObj.corePublicKey ⟨ObjectFactory.build_core_key k⟩)) ∧
    (∀ k, ObjectFactory.convert derive (MObj.corePublicKey k) =
      (ObjectFactory.build_pie_key derive KeyCls.publicKey k).map
        MObj.piePublicKey) ∧
    (∀ k, ObjectFactory.convert derive (MObj.piePrivateKey k) =
      Except.ok (MObj.corePrivateKey ⟨ObjectFactory.build_core_key k⟩)) ∧
    (∀ k, ObjectFactory.convert derive (MObj.corePrivateKey k) =
      (ObjectFactory.build_pie_key derive KeyCls.privateKey k).map
        MObj.piePrivateKey) ∧
    (∀ c, ObjectFactory.convert derive (MObj.pieCertificate c) =
      Except.ok (MObj.coreCertificate (ObjectFactory.build_core_certificate c))) ∧
    (∀ c, ObjectFactory.convert derive (MObj.coreCertificate c) =
      (ObjectFactory.build_pie_certificate c).map MObj.pieCertificate) ∧
    (∀ s, ObjectFactory.convert derive (MObj.pieSecretData s) =
      Except.ok (MObj.coreSecretData (ObjectFactory.build_core_secret_data s))) ∧
    (∀ s, ObjectFactory.convert derive (MObj.coreSecretData s) =
      Except.ok (MObj.pieSecretData (ObjectFactory.build_pie_secret_data s))) ∧
    (∀ o, ObjectFactory.convert derive (MObj.pieOpaqueObject o) =
      Except.ok (MObj.coreOpaqueObject (ObjectFactory.build_core_opaque_object o))) ∧
    (∀ o, ObjectFactory.convert derive (MObj.coreOpaqueObject o) =
      Except.ok (MObj.pieOpaqueObject (ObjectFactory.build_pie_opaque_object o))) ∧
    (∀ s, ObjectFactory.convert derive (MObj.pieSplitKey s) =
      Except.ok (MObj.coreSplitKey (ObjectFactory.build_core_split_key s))) ∧
    (∀ s, ObjectFactory.convert derive (MObj.coreSplitKey s) =
      (ObjectFactory.build_pie_split_key s).map MObj.pieSplitKey) ∧
    (∀ t, ObjectFactory.convert derive (MObj.foreign t) =
      Except.error ConvError.unsupportedVariant) :=
  ⟨fun _ => rfl, fun _ => rfl, fun _ => rfl, fun _ => rfl, fun _ => rfl,
   fun _ => rfl, fun _ => rfl, fun _ => rfl, fun _ => rfl, fun _ => rfl,
   fun _ => rfl, fun _ => rfl, fun _ => rfl, fun _ => rfl, fun _ => rfl⟩

/-- C3: a protocol symmetric key whose declared format type differs from
the format type implied by reconstructing the simplified key from its
material and algorithm is rejected with the format-mismatch error, while a
protocol public or private key with the very same mismatched key block
converts without this check firing. -/
theorem C3_format_type_guard (derive : Nat → List Nat → Nat) (kb : KeyBlock)
    (a l f : Nat)
    (ha : kb.cryptographic_algorithm = some a)
    (hl : kb.cryptographic_length = some l)
    (hf : kb.key_format_type = some f)
    (hm : derive a kb.key_value.key_material.value ≠ f) :
    ObjectFactory.convert derive (MObj.coreSymmetricKey ⟨kb⟩) =
      Except.error (ConvError.formatMismatch
        (derive a kb.key_value.key_material.value) f) ∧
    (∃ p, ObjectFactory.convert derive (MObj.corePublicKey ⟨kb⟩) =
      Except.ok (MObj.piePublicKey p)) ∧
    (∃ p, ObjectFactory.convert derive (MObj.corePrivateKey ⟨kb⟩) =
      Except.ok (MObj.piePrivateKey p)) := by
  obtain ⟨fmt, comp, kv, alg, len, kwd⟩ := kb
  simp only at ha hl hf hm
  subst ha hl hf
  refine ⟨?_, ⟨_, rfl⟩, ⟨_, rfl⟩⟩
  simp [ObjectFactory.convert, ObjectFactory.build_pie_key,
    PieSymmetricKey.make, Except.map, hm]

/-- Witness for C3: a concrete mismatched key block is rejected as a
symmetric key but accepted as a public key and as a private key. -/
theorem C3_format_type_guard_witness :
    ObjectFactory.convert (fun _ _ => 0)
      (MObj.coreSymmetricKey ⟨{ key_format_type := some 1
                                key_compression_type := none
                                key_value := ⟨⟨[5]⟩⟩
                                cryptographic_algorithm := some 3
                                cryptographic_length := some 128
                                key_wrapping_data := none }⟩) =
      Except.error (ConvError.formatMismatch 0 1) ∧
    (∃ p, ObjectFactory.convert (fun _ _ => 0)
      (MObj.corePublicKey ⟨{ key_format_type := some 1
                             key_compression_type := none
                             key_value := ⟨⟨[5]⟩⟩
                             cryptographic_algorithm := some 3
                             cryptographic_length := some 128
                             key_wrapping_data := none }⟩) =
      Except.ok (MObj.piePublicKey p)) ∧
    (∃ p, ObjectFactory.convert (fun _ _ => 0)
      (MObj.corePrivateKey ⟨{ key_format_type := some 1
                              key_compression_type := none
                              key_value := ⟨⟨[5]⟩⟩
                              cryptographic_algorithm := some 3
                              cryptographic_length := some 128
                              key_wrapping_data := none }⟩) =
      Except.ok (MObj.piePrivateKey p)) :=
  C3_format_type_guard (fun _ _ => 0) _ 3 128 1 rfl rfl rfl (by decide)

/-- C4: a protocol certificate of type X.509 converts to the simplified
X.509 certificate carrying the certificate value; a certificate of any
other type is rejected with the unsupported-certificate-type error. -/
theorem C4_certificate_type_guard (derive : Nat → List Nat → Nat)
    (c : CoreCertificate) :
    (c.certificate_type = CertificateType.X_509 →
      ObjectFactory.convert derive (MObj.coreCertificate c) =
        Except.ok (MObj.pieCertificate ⟨c.certificate_value⟩)) ∧
    (c.certificate_type ≠ CertificateType.X_509 →
      ObjectFactory.convert derive (MObj.coreCertificate c) =
        Except.error ConvError.unsupportedCertificateType) := by
  obtain ⟨t, v⟩ := c
  constructor <;> intro h <;>
    simp only at h <;>
    simp [ObjectFactory.convert, ObjectFactory.build_pie_certificate,
      Except.map, h]

/-- Witness for C4: a concrete X.509 protocol certificate converts; a
concrete PGP protocol certificate is rejected. -/
theorem C4_certificate_type_guard_witness :
    ObjectFactory.convert (fun _ _ => 0)
      (MObj.coreCertificate ⟨CertificateType.X_509, [48, 130]⟩) =
      Except.ok (MObj.pieCertificate ⟨[48, 130]⟩) ∧
    ObjectFactory.convert (fun _ _ => 0)
      (MObj.coreCertificate ⟨CertificateType.PGP, [48, 130]⟩) =
      Except.error ConvError.unsupportedCertificateType :=
  ⟨(C4_certificate_type_guard (fun _ _ => 0) ⟨CertificateType.X_509, [48, 130]⟩).1 rfl,
   (C4_certificate_type_guard (fun _ _ => 0) ⟨CertificateType.PGP, [48, 130]⟩).2 (by decide)⟩

/-- C5: an absent wrapping-data source yields an absent result (not an
empty mapping); a present source yields a mapping with exactly the six keys
`wrapping_method`, `encryption_key_information`,
`mac_signature_key_information`, `mac_signature`, `iv_counter_nonce`,
`encoding_option`, where a key-information entry is an empty mapping when
its source sub-block is absent and otherwise maps `unique_identifier` and
the built `cryptographic_parameters`. -/
theorem C5_wrapping_data_absence_vs_emptiness :
    ObjectFactory.build_key_wrapping_data none = none ∧
    (∀ v : KeyWrappingData,
      ObjectFactory.build_key_wrapping_data (some v) =
        some [("wrapping_method", WDVal.enum v.wrapping_method),
              ("encryption_key_information",
               WDVal.info (KIDictOf v.encryption_key_information)),
              ("mac_signature_key_information",
               WDVal.info (KIDictOf v.mac_signature_key_information)),
              ("mac_signature", WDVal.bytes v.mac_signature),
              ("iv_counter_nonce", WDVal.bytes v.iv_counter_nonce),
              ("encoding_option", WDVal.enum v.encoding_option)]) ∧
    KIDictOf none = ([] : KIDict) ∧
    (∀ i : EncryptionKeyInformation,
      KIDictOf (some i) =
        [("unique_identifier", KIVal.uid i.unique_identifier),
         ("cryptographic_parameters",
          KIVal.params (ObjectFactory.build_cryptographic_parameters
            i.cryptographic_parameters))]) :=
  ⟨rfl, fun v => build_kwd_some v, rfl, fun _ => rfl⟩

/-- C6: the built cryptographic-parameters mapping has exactly the thirteen
parameter keys, in the fixed order, and each entry equals the corresponding
source field, with nulls preserved. -/
theorem C6_cryptographic_parameters_copy (v : CryptographicParameters) :
    (ObjectFactory.build_cryptographic_parameters v).map Prod.fst =
      ["block_cipher_mode", "padding_method", "hashing_algorithm",
       "key_role_type", "digital_signature_algorithm",
       "cryptographic_algorithm", "random_iv", "iv_length", "tag_length",
       "fixed_field_length", "invocation_field_length", "counter_length",
       "initial_counter_value"] ∧
    dictFind (ObjectFactory.build_cryptographic_parameters v)
      "block_cipher_mode" = some v.block_cipher_mode ∧
    dictFind (ObjectFactory.build_cryptographic_parameters v)
      "padding_method" = some v.padding_method ∧
    dictFind (ObjectFactory.build_cryptographic_parameters v)
      "hashing_algorithm" = some v.hashing_algorithm ∧
    dictFind (ObjectFactory.build_cryptographic_parameters v)
      "key_role_type" = some v.key_role_type ∧
    dictFind (ObjectFactory.build_cryptographic_parameters v)
      "digital_signature_algorithm" = some v.digital_signature_algorithm ∧
    dictFind (ObjectFactory.build_cryptographic_parameters v)
      "cryptographic_algorithm" = some v.cryptographic_algorithm ∧
    dictFind (ObjectFactory.build_cryptographic_parameters v)
      "random_iv" = some v.random_iv ∧
    dictFind (ObjectFactory.build_cryptographic_parameters v)
      "iv_length" = some v.iv_length ∧
    dictFind (ObjectFactory.build_cryptographic_parameters v)
      "tag_length" = some v.tag_length ∧
    dictFind (ObjectFactory.build_cryptographic_parameters v)
      "fixed_field_length" = some v.fixed_field_length ∧
    dictFind (ObjectFactory.build_cryptographic_parameters v)
      "invocation_field_length" = some v.invocation_field_length ∧
    dictFind (ObjectFactory.build_cryptographic_parameters v)
      "counter_length" = some v.counter_length ∧
    dictFind (ObjectFactory.build_cryptographic_parameters v)
      "initial_counter_value" = some v.initial_counter_value :=
  ⟨rfl, rfl, rfl, rfl, rfl, rfl, rfl, rfl, rfl, rfl, rfl, rfl, rfl, rfl⟩

/-- C7: a simplified secret-data object converts to a protocol secret-data
object whose key block holds the key material, has its key-format type
fixed to OPAQUE, and has its cryptographic-algorithm, cryptographic-length
and key-wrapping-data fields omitted. -/
theorem C7_secret_data_to_core (derive : Nat → List Nat → Nat)
    (s : PieSecretData) :
    ObjectFactory.convert derive (MObj.pieSecretData s) =
      Except.ok (MObj.coreSecretData
        { secret_data_type := s.data_type
          key_block :=
            { key_format_type := some KeyFormatTypeOPAQUE
              key_compression_type := none
              key_value := ⟨⟨s.value⟩⟩
              cryptographic_algorithm := none
              cryptographic_length := none
              key_wrapping_data := none } }) :=
  rfl

theorem extractMaskList_mem_none (l : List PyVal) (x : PyVal) (hx : x ∈ l)
    (h : ∀ mm, x ≠ PyVal.mask mm) : extractMaskList l = none := by
  induction l with
  | nil => cases hx
  | cons y rest ih =>
    cases hx with
    | head =>
      cases x with
      | mask mm => exact absurd rfl (h mm)
      | certType t => rfl
      | bytes b => rfl
      | int n => rfl
      | str s => rfl
      | list ll => rfl
    | tail _ hmem =>
      cases y with
      | mask mm => simp [extractMaskList, ih hmem]
      | certType t => rfl
      | bytes b => rfl
      | int n => rfl
      | str s => rfl
      | list ll => rfl

/-- C8: constructing a concrete Certificate specialization fails with the
construction-validation error when the certificate type is not a recognized
certificate-type enum value, when the value is not a byte sequence, when
masks is provided and is not a list of recognized usage-mask enum values
(non-list or list with an invalid element), or when name is provided and is
not a string; with only certificate type and value given, the fields are
stored as given, the usage masks default to the empty list and the names to
the one-element list containing the placeholder. -/
theorem C8_certificate_construction_validation :
    (∀ ct v m n, (∀ t, ct ≠ PyVal.certType t) →
      Certificate.construct ct v m n =
        Except.error CertError.constructionValidation) ∧
    (∀ t v m n, (∀ b, v ≠ PyVal.bytes b) →
      Certificate.construct (PyVal.certType t) v m n =
        Except.error CertError.constructionValidation) ∧
    (∀ t b mv n, (∀ l, mv ≠ PyVal.list l) →
      Certificate.construct (PyVal.certType t) (PyVal.bytes b) (some mv) n =
        Except.error CertError.constructionValidation) ∧
    (∀ t b l n x, x ∈ l → (∀ mm, x ≠ PyVal.mask mm) →
      Certificate.construct (PyVal.certType t) (PyVal.bytes b)
        (some (PyVal.list l)) n =
        Except.error CertError.constructionValidation) ∧
    (∀ t b m nv, (∀ s, nv ≠ PyVal.str s) →
      Certificate.construct (PyVal.certType t) (PyVal.bytes b) m (some nv) =
        Except.error CertError.constructionValidation) ∧
    (∀ t b, Certificate.construct (PyVal.certType t) (PyVal.bytes b)
      none none =
      Except.ok { certificate_type := t
                  value := b
                  cryptographic_usage_masks := []
                  names := ["Certificate"] }) := by
  refine ⟨?_, ?_, ?_, ?_, ?_, fun t b => rfl⟩
  · intro ct v m n h
    cases ct with
    | certType t => exact absurd rfl (h t)
    | bytes b => rfl
    | int i => rfl
    | str s => rfl
    | mask mm => rfl
    | list l => rfl
  · intro t v m n h
    cases v with
    | bytes b => exact absurd rfl (h b)
    | certType tt => rfl
    | int i => rfl
    | str s => rfl
    | mask mm => rfl
    | list l => rfl
  · intro t b mv n h
    cases mv with
    | list l => exact absurd rfl (h l)
    | certType tt => rfl
    | bytes bb => rfl
    | int i => rfl
    | str s => rfl
    | mask mm => rfl
  · intro t b l n x hx h
    simp [Certificate.construct, extractMasks,
      extractMaskList_mem_none l x hx h]
  · intro t b m nv h
    cases hm : extractMasks m with
    | none => simp [Certificate.construct, hm]
    | some ms =>
      cases nv with
      | str s => exact absurd rfl (h s)
      | certType tt => simp [Certificate.construct, hm, extractName]
      | bytes bb => simp [Certificate.construct, hm, extractName]
      | int i => simp [Certificate.construct, hm, extractName]
      | mask mm => simp [Certificate.construct, hm, extractName]
      | list ll => simp [Certificate.construct, hm, extractName]

/-- Witness for C8: concrete instances of each failure case from the test
suite, and the concrete default success case. -/
theorem C8_certificate_construction_validation_witness :
    Certificate.construct (PyVal.str "invalid") (PyVal.bytes [48]) none none =
      Except.error CertError.constructionValidation ∧
    Certificate.construct (PyVal.certType CertificateType.X_509)
      (PyVal.int 0) none none =
      Except.error CertError.constructionValidation ∧
    Certificate.construct (PyVal.certType CertificateType.X_509)
      (PyVal.bytes [48]) (some (PyVal.str "invalid")) none =
      Except.error CertError.constructionValidation ∧
    Certificate.construct (PyVal.certType CertificateType.X_509)
      (PyVal.bytes [48]) (some (PyVal.list [PyVal.str "invalid"])) none =
      Except.error CertError.constructionValidation ∧
    Certificate.construct (PyVal.certType CertificateType.X_509)
      (PyVal.bytes [48]) none (some (PyVal.int 0)) =
      Except.error CertError.constructionValidation ∧
    Certificate.construct (PyVal.certType CertificateType.X_509)
      (PyVal.bytes [48]) none none =
      Except.ok { certificate_type := CertificateType.X_509
                  value := [48]
                  cryptographic_usage_masks := []
                  names := ["Certificate"] } :=
  ⟨C8_certificate_construction_validation.1 _ _ _ _ (fun t h => nomatch h),
   C8_certificate_construction_validation.2.1 _ _ _ _ (fun b h => nomatch h),
   C8_certificate_construction_validation.2.2.1 _ _ _ _ (fun l h => nomatch h),
   C8_certificate_construction_validation.2.2.2.1 _ _ _ _ _
     (List.mem_singleton.mpr rfl) (fun mm h => nomatch h),
   C8_certificate_construction_validation.2.2.2.2.1 _ _ _ _ (fun s h => nomatch h),
   C8_certificate_construction_validation.2.2.2.2.2 _ _⟩

/-- C9: direct instantiation of the abstract Certificate entity fails with
the construction-validation error for every argument tuple — including
arguments that successfully construct a concrete specialization — and every
successfully constructed concrete specialization reports the certificate
object-type tag as its object type. -/
theorem C9_abstract_certificate_entity :
    (∀ ct v m n, Certificate.constructAbstract ct v m n =
      Except.error CertError.constructionValidation) ∧
    (∀ ct v m n c, Certificate.construct ct v m n = Except.ok c →
      c.object_type = ObjectType.CERTIFICATE) :=
  ⟨fun _ _ _ _ => rfl, fun _ _ _ _ _ _ => rfl⟩

/-- Witness for C9: the abstract entity rejects the very arguments the
concrete specialization accepts, and the resulting concrete object reports
the certificate object type. -/
theorem C9_abstract_certificate_entity_witness :
    Certificate.constructAbstract (PyVal.certType CertificateType.X_509)
      (PyVal.bytes [48]) none none =
      Except.error CertError.constructionValidation ∧
    PieCertificateEntity.object_type
      { certificate_type := CertificateType.X_509
        value := [48]
        cryptographic_usage_masks := []
        names := ["Certificate"] } = ObjectType.CERTIFICATE :=
  ⟨C9_abstract_certificate_entity.1 _ _ _ _,
   C9_abstract_certificate_entity.2 (PyVal.certType CertificateType.X_509)
     (PyVal.bytes [48]) none none _ rfl⟩

/-- C10: a simplified key or split key whose wrapping-data field is a
present but empty mapping converts to a key block with an absent
wrapping-data field, identical to the result for the same key with no
wrapping data at all. -/
theorem C10_empty_wrapping_data_collapses (k : PieKey) (s : PieSplitKey)
    (hk : k.key_wrapping_data = some [])
    (hs : s.key_wrapping_data = some []) :
    ObjectFactory.build_core_key k =
      ObjectFactory.build_core_key { k with key_wrapping_data := none } ∧
    (ObjectFactory.build_core_key k).key_wrapping_data = none ∧
    ObjectFactory.build_core_split_key s =
      ObjectFactory.build_core_split_key { s with key_wrapping_data := none } ∧
    (ObjectFactory.build_core_split_key s).key_block.key_wrapping_data =
      none := by
  obtain ⟨a, l, v, f, w⟩ := k
  obtain ⟨a2, l2, v2, f2, w2, p1, p2, p3, p4, p5⟩ := s
  simp only at hk hs
  subst hk hs
  exact ⟨rfl, rfl, rfl, rfl⟩

/-- Witness for C10: a concrete key and split key with empty wrapping-data
mappings produce key blocks with absent wrapping data. -/
theorem C10_empty_wrapping_data_collapses_witness :
    ObjectFactory.build_core_key
      { cryptographic_algorithm := 3
        cryptographic_length := 128
        value := [0, 1]
        key_format_type := 1
        key_wrapping_data := some [] } =
      ObjectFactory.build_core_key
        { cryptographic_algorithm := 3
          cryptographic_length := 128
          value := [0, 1]
          key_format_type := 1
          key_wrapping_data := none } ∧
    (ObjectFactory.build_core_key
      { cryptographic_algorithm := 3
        cryptographic_length := 128
        value := [0, 1]
        key_format_type := 1
        key_wrapping_data := some [] }).key_wrapping_data = none ∧
    ObjectFactory.build_core_split_key
      { cryptographic_algorithm := 3
        cryptographic_length := 128
        value := [0, 1]
        key_format_type := 1
        key_wrapping_data := some []
        split_key_parts := 3
        key_part_identifier := 1
        split_key_threshold := 2
        split_key_method := 1
        prime_field_size := none } =
      ObjectFactory.build_core_split_key
        { cryptographic_algorithm := 3
          cryptographic_length := 128
          value := [0, 1]
          key_format_type := 1
          key_wrapping_data := none
          split_key_parts := 3
          key_part_identifier := 1
          split_key_threshold := 2
          split_key_method := 1
          prime_field_size := none } ∧
    (ObjectFactory.build_core_split_key
      { cryptographic_algorithm := 3
        cryptographic_length := 128
        value := [0, 1]
        key_format_type := 1
        key_wrapping_data := some []
        split_key_parts := 3
        key_part_identifier := 1
        split_key_threshold := 2
        split_key_method := 1
        prime_field_size := none }).key_block.key_wrapping_data = none :=
  C10_empty_wrapping_data_collapses _ _ rfl rfl
